import Mathlib

/-!
Verification of the modelChecker check-execution engine against its
natural-language specification.  The definitions below are a shallow
embedding of the Python sources:

  * `constants.py`         — enums and the component format mapping
  * `validation_check_base.py` — result rendering, selection flattening
  * `maya_utility.py`      — scene enumeration and name/uuid lookup
  * `runner.py`            — the Runner state machine (contexts, cache,
                             cooperative interruption, result publishing)
  * `ui/report_ui.py`      — the section-header node rendering

Mutable Python dictionaries that are shared by reference (the per-context
error objects) are modelled with an explicit heap of addresses, so that
aliasing between a published result object and the runner's own context
dictionaries is visible in the model.
-/

namespace ModelChecker

/-- `constants.NodeType`: the component granularity a check inspects. -/
inductive NodeType where
  | uv
  | vertex
  | edge
  | face
  | node
deriving DecidableEq, Repr

/-- `constants.DataType`: which entity domain a run or a check targets. -/
inductive DataType where
  | maya
  | usd
  | both
deriving DecidableEq, Repr

/-- `constants.COMPONENT_MAPPING[nt].format(c)`: the component suffix the
source produces for a component index.  The source mapping has no entry for
`NODE`; the source never indexes it at that granularity, so that case is
given the empty suffix here. -/
def formatComponent : NodeType → Nat → String
  | NodeType.uv, c => ".map[" ++ toString c ++ "]"
  | NodeType.vertex, c => ".vtx[" ++ toString c ++ "]"
  | NodeType.edge, c => ".e[" ++ toString c ++ "]"
  | NodeType.face, c => ".f[" ++ toString c ++ "]"
  | NodeType.node, _ => ""

/-- The data a check's `run` returns: a plain list of uuids for
node-granularity checks, or an insertion-ordered mapping from uuid to the
list of failing component indices for component-granularity checks. -/
inductive MayaData where
  | nodes (l : List String)
  | comps (m : List (String × List Nat))
deriving DecidableEq, Repr

/-- Python truthiness test `not context` on the stored data. -/
def MayaData.isEmptyData : MayaData → Bool
  | MayaData.nodes l => l.isEmpty
  | MayaData.comps m => m.isEmpty

/-- Python `len(context)`: list length, or number of dictionary keys. -/
def MayaData.pyLen : MayaData → Nat
  | MayaData.nodes l => l.length
  | MayaData.comps m => m.length

/-- `str(x)` applied to the result of `get_name_from_uuid` (which is
`None` when the uuid does not resolve). -/
def pyStrOpt : Option String → String
  | some s => s
  | none => "None"

/-- Modelled from the spec: `countIssues(checkResult)` — "for flat-set
results, set size; for mapped results, sum of component-list lengths".
This is the spec's wording, kept separate so it can be compared with what
the source renderer actually displays. -/
def specCountIssues : MayaData → Nat
  | MayaData.nodes l => l.length
  | MayaData.comps m => (m.map (fun p => p.2.length)).sum

/-- `ValidationCheckBase.render_maya_data_html(self, context, verbosity_level)`.
`lookup` stands for `maya_utility.get_name_from_uuid`; `label` and `nt` are
the check's `label` and `node_type` attributes. -/
def render_maya_data_html (lookup : String → Option String) (label : String)
    (nt : NodeType) (context : MayaData) (verbosity : Nat) : String :=
  if context.isEmptyData then
    "&#10752; " ++ label ++ "<font color=#64a65a> [ SUCCESS ]</font><br>"
  else
    let body :=
      if verbosity = 0 then
        let n := context.pyLen
        let word := if n = 1 then ("issue") else ("issues")
        "&#10752; " ++ label ++ "<font color=#9c4f4f> [ FAILED ] - " ++
          toString n ++ " " ++ word ++ "</font><br>"
      else if verbosity = 1 then
        "&#10752; " ++ label ++ "<font color=#9c4f4f> [ FAILED ] </font><br>" ++
        (match context with
         | MayaData.nodes l =>
             String.join (l.map (fun node =>
               "&#9492;&#9472; <font color=#9c4f4f>" ++ pyStrOpt (lookup node) ++ "</font><br>"))
         | MayaData.comps m =>
             String.join (m.map (fun p =>
               let word := if p.2.length = 1 then ("issue") else ("issues")
               "&#9492;&#9472; " ++ pyStrOpt (lookup p.1) ++ " - <font color=#9c4f4f>" ++
                 toString p.2.length ++ " " ++ word ++ "</font><br>")))
      else if verbosity = 2 then
        "&#10752; " ++ label ++ "<font color=#9c4f4f> [ FAILED ] </font><br>" ++
        (match context with
         | MayaData.nodes l =>
             String.join (l.map (fun node =>
               "&#9492;&#9472; <font color=#9c4f4f>" ++ pyStrOpt (lookup node) ++ "</font><br>"))
         | MayaData.comps m =>
             String.join (m.map (fun p =>
               "&#9492;&#9472; <font color=#9c4f4f>" ++ pyStrOpt (lookup p.1) ++ "</font><br>" ++
               String.join (p.2.map (fun c =>
                 "&nbsp;&nbsp;&#9492;&#9472; <font>" ++ pyStrOpt (lookup p.1) ++
                   formatComponent nt c ++ "</font><br>")))))
      else ""
    "<br>" ++ body ++ "<br>"

/-- `ValidationCheckBase.render_usd_data_html(self, context, verbosity_level,
last_failed)`. -/
def render_usd_data_html (label : String) (context : List String)
    (verbosity : Nat) (lastFailed : Bool) : String :=
  let head := if lastFailed && !(verbosity = 0) then ("<br>") else ("")
  if context.isEmpty then
    head ++ "&#10752; " ++ label ++ "<font color=#64a65a> [ SUCCESS ]</font><br>"
  else if verbosity = 0 then
    let word := if context.length = 1 then ("issue") else ("issues")
    head ++ "&#10752; " ++ label ++ "<font color=#9c4f4f> [ FAILED ] - " ++
      toString context.length ++ " " ++ word ++ "</font><br>"
  else
    head ++ "&#10752; " ++ label ++ "<font color=#9c4f4f> [ FAILED ] </font><br>" ++
    String.join (context.map (fun node => "&#9492;&#9472; " ++ node ++ "<br>"))

/-- `ValidationCheckBase.format_maya_data(self, context)`: flattens stored
check data into the name list handed to `cmds.select`.  For
component-granularity checks the source appends one entry per failing
component (`name + COMPONENT_MAPPING[node_type].format(component)`).
Node-granularity data under a component granularity (or vice versa) does
not occur in the source, where each check's granularity fixes the shape of
its data; those unreachable combinations map to `[]` here. -/
def format_maya_data (lookup : String → Option String) (nt : NodeType)
    (context : MayaData) : List String :=
  if context.isEmptyData then []
  else
    match nt, context with
    | NodeType.node, MayaData.nodes l => l.map (fun u => pyStrOpt (lookup u))
    | NodeType.node, MayaData.comps _ => []
    | _, MayaData.nodes _ => []
    | _, MayaData.comps m =>
        m.flatMap (fun p => p.2.map (fun c => pyStrOpt (lookup p.1) ++ formatComponent nt c))

/-- The mutable attributes of a check object that the per-check renderer can
see (`self.label`, `self.node_type`); threading it makes hidden renderer
state explicit. -/
structure CheckObjState where
  label : String
  nodeType : NodeType
deriving DecidableEq, Repr

/-- The per-check renderer as a state-passing method call: the source method
reads `self.label` and `self.node_type` and writes nothing. -/
def render_maya_data_html_method (lookup : String → Option String)
    (self : CheckObjState) (context : MayaData) (verbosity : Nat) :
    String × CheckObjState :=
  (render_maya_data_html lookup self.label self.nodeType context verbosity, self)

/-! ### Scene enumeration (`maya_utility.py`) -/

/-- A shape child of a transform, as seen through `cmds.listRelatives` and
`cmds.nodeType`; `primPaths` is what traversing the attached stage yields
when the shape is a `mayaUsdProxyShape`. -/
structure Shape where
  path : String
  shapeNodeType : String
  primPaths : List String
deriving DecidableEq, Repr

/-- A transform node of the scene together with its shape children. -/
structure Transform where
  name : String
  shapes : List Shape
deriving DecidableEq, Repr

/-- The four always-present default root entities excluded by
`get_all_nodes`. -/
def defaultCameras : List String := ["|front", "|persp", "|top", "|side"]

/-- `maya_utility._get_all_prims_from_proxy`: prefixes every traversed prim
path with the proxy shape name and a comma. -/
def getAllPrimsFromProxy (proxyShapeName : String) (primPaths : List String) :
    List String :=
  primPaths.map (fun p => proxyShapeName ++ "," ++ p)

/-- `maya_utility.get_all_nodes`: iterates all transforms, skips the four
default cameras, and for every shape child either expands a USD proxy into
prim paths or appends the owning transform's uuid.  `uuidOf` stands for
`get_uuid_from_name` (which resolves for nodes just listed). -/
def get_all_nodes (uuidOf : String → String) (scene : List Transform) :
    List String :=
  (scene.filter (fun t => !(defaultCameras.contains t.name))).flatMap (fun t =>
    t.shapes.flatMap (fun c =>
      if c.shapeNodeType = "mayaUsdProxyShape" then
        getAllPrimsFromProxy c.path c.primPaths
      else [uuidOf t.name]))

/-- Python `node[0] == '|'`, the domain split used by
`Runner._setup_context` (an empty name, which would raise in Python and
never occurs, is classified as non-USD). -/
def pyFirstCharIsPipe (s : String) : Bool :=
  match s.data with
  | [] => false
  | c :: _ => c = '|'

/-! ### Python call binding for `get_name_from_uuid` (`maya_utility.py`,
`runner.py`, `ui/report_ui.py`) -/

/-- A Python `TypeError` raised while binding call arguments. -/
structure PyCallError where
  message : String
deriving DecidableEq, Repr

/-- The parameter list of `maya_utility.get_name_from_uuid(uuid)`. -/
def getNameFromUuidParams : List String := ["uuid"]

/-- Python call binding: `nPos` positional arguments fill the leading
parameters, and every keyword argument must name a parameter that was not
filled positionally (the callee declares no `**kwargs`). -/
def bindsOk (params : List String) (nPos : Nat) (kwargs : List String) : Bool :=
  decide (nPos ≤ params.length) &&
    kwargs.all (fun k => (params.drop nPos).contains k)

/-- The call `maya_utility.get_name_from_uuid(node, long=False)` as written
in `Runner.get_mesh_shapes` and `ReportUI._render_section_header`: one
positional argument plus the keyword `long`. -/
def callGetNameFromUuidLong (lookup : String → Option String) (node : String) :
    Except PyCallError (Option String) :=
  if bindsOk getNameFromUuidParams 1 ["long"] then Except.ok (lookup node)
  else Except.error ⟨"get_name_from_uuid() got an unexpected keyword argument"⟩

/-- `Runner.get_mesh_shapes` in isolation: on a cache miss it first builds
`node_names` via `get_name_from_uuid(node, long=False)` for every node (the
list comprehension raises at its first element if binding fails), then
collects the first mesh shape of each resolved node.  `listShapes` stands
for `cmds.listRelatives(name, shapes=True, fullPath=True, typ="mesh")`
(with `[]` for Maya's `None`). -/
def get_mesh_shapes (lookup : String → Option String)
    (listShapes : String → List String)
    (cachedData : List (String × List String)) (nodes : List String) :
    Except PyCallError (List String) :=
  match List.lookup "mesh_shapes" cachedData with
  | some v => Except.ok v
  | none => do
      let names ← nodes.mapM (callGetNameFromUuidLong lookup)
      let shapes := names.foldl (fun acc n =>
        match n with
        | some nm =>
            match listShapes nm with
            | [] => acc
            | s :: _ => acc ++ [s]
        | none => acc) []
      Except.ok shapes

/-- The `rendered_nodes` expression of `ReportUI._render_section_header` in
the Maya branch at verbosity above Overview:
`"N/A" if not nodes else "<br>".join(str(get_name_from_uuid(node, long=False)) for node in nodes)`. -/
def rendered_nodes_maya (lookup : String → Option String)
    (nodes : List String) : Except PyCallError String :=
  if nodes.isEmpty then Except.ok "N/A"
  else do
    let names ← nodes.mapM (callGetNameFromUuidLong lookup)
    Except.ok (String.intercalate "<br>" (names.map pyStrOpt))

/-! ### The Runner (`runner.py`)

Python dictionaries are shared by reference: `runner.run` binds
`maya_error_object = self.contexts[context]['maya']` and the published
`result_object` keeps pointing at the very same objects.  To make this
aliasing provable the per-context error dictionaries live on an explicit
heap of addresses; `_setup_context` and `reset_contexts` allocate fresh
dictionaries, while storing a check result mutates the dictionary at an
existing address in place. -/

/-- Heap address of a dictionary object. -/
abbrev Addr := Nat

/-- Insertion-ordered dictionary from check name to stored Maya data. -/
abbrev MayaMap := List (String × MayaData)

/-- Insertion-ordered dictionary from check name to stored USD data. -/
abbrev UsdMap := List (String × List String)

/-- Python dictionary assignment `d[k] = v`: an existing key keeps its
position and gets the new value, a new key is appended. -/
def dictSet {α : Type} (d : List (String × α)) (k : String) (v : α) :
    List (String × α) :=
  if (d.map Prod.fst).contains k then
    d.map (fun p => if p.1 = k then (k, v) else p)
  else d ++ [(k, v)]

/-- The heap of live dictionary objects, split by value type, with an
allocation counter. -/
structure Heap where
  maya : List (Addr × MayaMap)
  usd : List (Addr × UsdMap)
  next : Addr
deriving DecidableEq, Repr

/-- Dereference a Maya error dictionary. -/
def lookupMaya (h : Heap) (a : Addr) : Option MayaMap := List.lookup a h.maya

/-- Dereference a USD error dictionary. -/
def lookupUsd (h : Heap) (a : Addr) : Option UsdMap := List.lookup a h.usd

/-- In-place update of the object stored at one address of an object
list. -/
def updAt {β : Type} (l : List (Addr × β)) (a : Addr) (f : β → β) :
    List (Addr × β) :=
  l.map (fun p => if p.1 = a then (p.1, f p.2) else p)

/-- `maya_error_object[name] = value`: in-place mutation of the dictionary
at an address. -/
def storeMaya (h : Heap) (a : Addr) (k : String) (v : MayaData) : Heap :=
  { h with maya := updAt h.maya a (fun d => dictSet d k v) }

/-- `usd_error_object[name] = value`: in-place mutation of the dictionary
at an address. -/
def storeUsd (h : Heap) (a : Addr) (k : String) (v : List String) : Heap :=
  { h with usd := updAt h.usd a (fun d => dictSet d k v) }

/-- Allocate a fresh empty Maya dictionary and a fresh empty USD dictionary
(the `{"maya": {}, "usd": {}}` pair built by `_setup_context`). -/
def allocPair (h : Heap) : (Addr × Addr) × Heap :=
  ((h.next, h.next + 1),
   { maya := h.maya ++ [(h.next, [])],
     usd := h.usd ++ [(h.next + 1, [])],
     next := h.next + 2 })

/-- The two context keys of `Runner.contexts`. -/
inductive Ctx where
  | all
  | selection
deriving DecidableEq, Repr

/-- `Runner.result_object` as published through `result_signal`: it holds
references (addresses) to the per-context error dictionaries, plus copies
of the remaining fields. -/
structure RunResultObj where
  mayaAddr : Addr
  usdAddr : Addr
  mayaNodes : List String
  usdNodes : List String
  interrupted : Bool
  context : Ctx
  checksAmount : Nat
deriving DecidableEq, Repr

/-- A check as the Runner sees it: its registry metadata (`name`,
`get_data_type()` — the reflective domain detection, `None` when neither
run method is overridden) and the behaviour of one `do_run` call against
the current context (the values returned by `run` and `usd_run`, and the
cache entries the evaluation lazily populates through the runner's
iterators). -/
structure Check where
  name : String
  dataType : Option DataType
  mayaResult : MayaData
  usdResult : List String
  cacheWrites : List (String × List String)
deriving DecidableEq, Repr

/-- The Runner's mutable attributes.  `emitted` records every
`result_signal` emission together with a snapshot of the dictionaries the
published references pointed at when the signal fired; `errors` records
every `error_signal` emission. -/
structure RunnerState where
  currentCheck : Option String
  currentNumberCheck : Nat
  scheduledChecksAmount : Nat
  currentContext : Ctx
  allAddrs : Addr × Addr
  selAddrs : Addr × Addr
  heap : Heap
  interrupt : Bool
  resultObject : Option RunResultObj
  nodes : List String
  usdNodes : List String
  cachedData : List (String × List String)
  emitted : List (RunResultObj × MayaMap × UsdMap)
  errors : List String
deriving DecidableEq, Repr

/-- Addresses of the error-dictionary pair of a context key. -/
def ctxAddrs (s : RunnerState) : Ctx → Addr × Addr
  | Ctx.all => s.allAddrs
  | Ctx.selection => s.selAddrs

/-- `Runner.__init__`: both contexts start as fresh empty dictionary
pairs. -/
def initState : RunnerState :=
  { currentCheck := none
    currentNumberCheck := 0
    scheduledChecksAmount := 0
    currentContext := Ctx.all
    allAddrs := (0, 1)
    selAddrs := (2, 3)
    heap := { maya := [(0, []), (2, [])], usd := [(1, []), (3, [])], next := 4 }
    interrupt := false
    resultObject := none
    nodes := []
    usdNodes := []
    cachedData := []
    emitted := []
    errors := [] }

/-- `Runner._setup_context(data_type)`: takes the active selection (from
`cmds.ls(selection=True, ufe=True, uuid=True)`) or the whole-scene
enumeration, picks the context key, replaces that context's dictionary pair
with freshly allocated empty ones, and splits the node list into Maya and
USD domains on the leading character.  It does not touch `cached_data`. -/
def setup_context (s : RunnerState) (selection sceneAll : List String)
    (dt : DataType) : RunnerState :=
  let allNodes := if selection.isEmpty then sceneAll else selection
  let ctx := if selection.isEmpty then Ctx.all else Ctx.selection
  let (addrs, h) := allocPair s.heap
  let nodes :=
    if dt = DataType.usd then []
    else allNodes.filter (fun n => !(pyFirstCharIsPipe n))
  let usdNodes :=
    if dt = DataType.maya then []
    else allNodes.filter (fun n => pyFirstCharIsPipe n)
  { s with
      currentContext := ctx
      allAddrs := if ctx = Ctx.all then addrs else s.allAddrs
      selAddrs := if ctx = Ctx.selection then addrs else s.selAddrs
      heap := h
      nodes := nodes
      usdNodes := usdNodes }

/-- `Runner.is_current_context_empty`: the current context's pair equals
`{"maya": {}, "usd": {}}` (a dangling address, which cannot occur, counts
as empty like a missing key would). -/
def isCurrentContextEmpty (s : RunnerState) : Bool :=
  let a := ctxAddrs s s.currentContext
  match lookupMaya s.heap a.1, lookupUsd s.heap a.2 with
  | some m, some u => m.isEmpty && u.isEmpty
  | _, _ => true

/-- `Runner.stop`: sets the interrupt flag only while a check is current. -/
def stopOp (s : RunnerState) : RunnerState :=
  match s.currentCheck with
  | some _ => { s with interrupt := true }
  | none => s

/-- `Runner._error_run`: emits on `error_signal` and nothing else. -/
def error_run (s : RunnerState) (msg : String) : RunnerState :=
  { s with errors := s.errors ++ [msg] }

/-- `Runner._post_run`: clears the cache, the current check, and the
interrupt flag. -/
def post_run (s : RunnerState) : RunnerState :=
  { s with cachedData := [], currentCheck := none, interrupt := false }

/-- `Runner.reset_contexts`. -/
def reset_contexts (s : RunnerState) : RunnerState :=
  let (addrsAll, h1) := allocPair s.heap
  let (addrsSel, h2) := allocPair h1
  { s with
      nodes := []
      usdNodes := []
      allAddrs := addrsAll
      selAddrs := addrsSel
      heap := h2
      currentContext := Ctx.all
      cachedData := []
      resultObject := none }

/-- Whether the per-check loop stores the Maya result
(`data_type != DataType.USD and check.get_data_type() != DataType.USD`). -/
def storableM (dt : DataType) (c : Check) : Prop :=
  dt ≠ DataType.usd ∧ c.dataType ≠ some DataType.usd

/-- Whether the per-check loop stores the USD result
(`data_type != DataType.MAYA and check.get_data_type() != DataType.MAYA`). -/
def storableU (dt : DataType) (c : Check) : Prop :=
  dt ≠ DataType.maya ∧ c.dataType ≠ some DataType.maya

instance (dt : DataType) (c : Check) : Decidable (storableM dt c) := by
  unfold storableM; infer_instance

instance (dt : DataType) (c : Check) : Decidable (storableU dt c) := by
  unfold storableU; infer_instance

/-- Lazy write-once cache population performed by a check's evaluation
through the runner's iterators: a key already present is left as is. -/
def applyCacheWrites (cached : List (String × List String))
    (writes : List (String × List String)) : List (String × List String) :=
  writes.foldl (fun acc kv =>
    if (acc.map Prod.fst).contains kv.1 then acc else acc ++ [kv]) cached

/-- The heap effect of storing one check's results into the current
context's dictionaries
(`maya_error_object[name] = maya_result` when
`data_type != USD and check.get_data_type() != USD`, and the symmetric
USD store). -/
def storeStep (dt : DataType) (h : Heap) (mA uA : Addr) (c : Check) : Heap :=
  let h1 := if storableM dt c then storeMaya h mA c.name c.mayaResult else h
  if storableU dt c then storeUsd h1 uA c.name c.usdResult else h1

/-- One iteration of the `for idx, check_widget in enumerate(check_widgets)`
loop of `Runner.run`, taken when the interrupt flag is clear: record the
check as current, let its evaluation lazily populate the cache, store its
results, and honour a stop request arriving while this check is current
(`stop` only succeeds while `current_check` is set). -/
def runStep (dt : DataType) (stopAfter : Option Nat) (mA uA : Addr)
    (s : RunnerState) (c : Check) (idx : Nat) : RunnerState :=
  let base := { s with
                  currentCheck := some c.name
                  currentNumberCheck := idx + 1
                  cachedData := applyCacheWrites s.cachedData c.cacheWrites
                  heap := storeStep dt s.heap mA uA c }
  if stopAfter = some (idx + 1) then stopOp base else base

/-- The per-check loop of `Runner.run`: the interrupt flag is observed at
the top of each iteration. -/
def runLoop (dt : DataType) (stopAfter : Option Nat) (mA uA : Addr) :
    RunnerState → List Check → Nat → RunnerState
  | s, [], _ => s
  | s, c :: rest, idx =>
    if s.interrupt then s
    else runLoop dt stopAfter mA uA (runStep dt stopAfter mA uA s c idx) rest (idx + 1)

/-- The working context `run` proceeds with: refreshed through
`_setup_context` when `refresh_context` is passed or the current context is
empty, the previous one otherwise. -/
def resolvedContext (s : RunnerState) (refreshContext : Bool)
    (selection sceneAll : List String) (dt : DataType) : RunnerState :=
  if refreshContext || isCurrentContextEmpty s then
    setup_context s selection sceneAll dt
  else s

/-- The state after the per-check loop of a non-error run: the loop runs
over the current context's dictionary addresses with
`scheduled_checks_amount` set to the number of scheduled checks. -/
def loopState (s1 : RunnerState) (checks : List Check) (dt : DataType)
    (stopAfter : Option Nat) : RunnerState :=
  runLoop dt stopAfter (ctxAddrs s1 s1.currentContext).1
    (ctxAddrs s1 s1.currentContext).2
    { s1 with scheduledChecksAmount := checks.length } checks 0

/-- The `result_object` dictionary built at the end of a non-error run. -/
def mainResult (s1 : RunnerState) (checks : List Check) (dt : DataType)
    (stopAfter : Option Nat) : RunResultObj :=
  { mayaAddr := (ctxAddrs s1 s1.currentContext).1
    usdAddr := (ctxAddrs s1 s1.currentContext).2
    mayaNodes := (loopState s1 checks dt stopAfter).nodes
    usdNodes := (loopState s1 checks dt stopAfter).usdNodes
    interrupted := (loopState s1 checks dt stopAfter).interrupt
    context := (loopState s1 checks dt stopAfter).currentContext
    checksAmount := (loopState s1 checks dt stopAfter).scheduledChecksAmount }

/-- The contents of the Maya error dictionary at the moment the result is
published. -/
def mainSnapM (s1 : RunnerState) (checks : List Check) (dt : DataType)
    (stopAfter : Option Nat) : MayaMap :=
  (lookupMaya (loopState s1 checks dt stopAfter).heap
    (ctxAddrs s1 s1.currentContext).1).getD []

/-- The contents of the USD error dictionary at the moment the result is
published. -/
def mainSnapU (s1 : RunnerState) (checks : List Check) (dt : DataType)
    (stopAfter : Option Nat) : UsdMap :=
  (lookupUsd (loopState s1 checks dt stopAfter).heap
    (ctxAddrs s1 s1.currentContext).2).getD []

/-- The non-error body of `Runner.run`: bind the current context's error
dictionaries, iterate the checks, publish the result object on
`result_signal`, then `_post_run`. -/
def mainRun (s1 : RunnerState) (checks : List Check) (dt : DataType)
    (stopAfter : Option Nat) : RunnerState :=
  post_run
    { loopState s1 checks dt stopAfter with
        resultObject := some (mainResult s1 checks dt stopAfter)
        emitted := (loopState s1 checks dt stopAfter).emitted ++
          [(mainResult s1 checks dt stopAfter,
            mainSnapM s1 checks dt stopAfter,
            mainSnapU s1 checks dt stopAfter)] }

/-- `Runner.run(check_widgets, data_type, refresh_context)`.  `selection`
and `sceneAll` are the host's answers consumed by `_setup_context`;
`stopAfter` is the cooperative stop request schedule.  On the two setup
error paths the method returns after `_error_run` without touching the
error dictionaries, the cache, or the published result. -/
def runOp (s : RunnerState) (checks : List Check) (dt : DataType)
    (refreshContext : Bool) (selection sceneAll : List String)
    (stopAfter : Option Nat) : RunnerState :=
  if (resolvedContext s refreshContext selection sceneAll dt).nodes.isEmpty &&
      (resolvedContext s refreshContext selection sceneAll dt).usdNodes.isEmpty then
    error_run (resolvedContext s refreshContext selection sceneAll dt) "No Nodes to tests"
  else if checks.isEmpty then
    error_run (resolvedContext s refreshContext selection sceneAll dt) "No Checks enabled"
  else
    mainRun (resolvedContext s refreshContext selection sceneAll dt) checks dt stopAfter

/-- The operations a session can perform on the Runner. -/
inductive Op where
  | runChecks (checks : List Check) (dt : DataType) (refresh : Bool)
      (selection sceneAll : List String) (stopAfter : Option Nat)
  | reset
  | stopReq
deriving Repr

/-- Apply one operation. -/
def applyOp (s : RunnerState) : Op → RunnerState
  | Op.runChecks cs dt r sel scene sa => runOp s cs dt r sel scene sa
  | Op.reset => reset_contexts s
  | Op.stopReq => stopOp s

/-- The state after a session of operations starting from `__init__`. -/
def runTrace (ops : List Op) : RunnerState := ops.foldl applyOp initState

/-! ### Claim-level predicates -/

/-- The keys of an insertion-ordered dictionary. -/
def dictKeys {α : Type} (d : List (String × α)) : List String := d.map Prod.fst

/-- Every address stored in the heap is below the allocation counter. -/
def heapWF (h : Heap) : Prop :=
  (∀ a ∈ h.maya.map Prod.fst, a < h.next) ∧ (∀ a ∈ h.usd.map Prod.fst, a < h.next)

instance (h : Heap) : Decidable (heapWF h) := by
  unfold heapWF; infer_instance

/-- The Maya error dictionary the per-check loop leaves behind, computed
map-functionally: one store per Maya-storable check, in order. -/
def storeNamesM (dt : DataType) (mm : MayaMap) (cs : List Check) : MayaMap :=
  cs.foldl (fun m c => if storableM dt c then dictSet m c.name c.mayaResult else m) mm

/-- The USD error dictionary the per-check loop leaves behind. -/
def storeNamesU (dt : DataType) (uu : UsdMap) (cs : List Check) : UsdMap :=
  cs.foldl (fun m c => if storableU dt c then dictSet m c.name c.usdResult else m) uu

/-- No result published over a run ever covers zero checks. -/
def noZeroCheckResults (s : RunnerState) : Prop :=
  ∀ e ∈ s.emitted, 0 < e.1.checksAmount

/-- Outcome of a run interrupted after its k-th check: exactly one new
result is published, flagged interrupted, the bookkeeping stopped at check
number k, the published dictionaries are the stores of the first k checks,
and their key sets cover exactly the names of the first k checks. -/
def interruptedRunOutcome (pre : RunnerState) (checks : List Check)
    (dt : DataType) (k : Nat) (r : RunnerState) : Prop :=
  ∃ res : RunResultObj,
    r.emitted = pre.emitted ++
      [(res, storeNamesM dt [] (checks.take k), storeNamesU dt [] (checks.take k))] ∧
    res.interrupted = true ∧
    r.currentNumberCheck = k ∧
    ∀ nm : String,
      (nm ∈ dictKeys (storeNamesM dt [] (checks.take k)) ∨
       nm ∈ dictKeys (storeNamesU dt [] (checks.take k))) ↔
      nm ∈ (checks.take k).map Check.name

/-- Every published result still dereferences to the dictionary contents it
was published with: earlier runs' results were not mutated. -/
def publishedResultsIntact (s : RunnerState) : Prop :=
  ∀ e ∈ s.emitted,
    lookupMaya s.heap e.1.mayaAddr = some e.2.1 ∧
    lookupUsd s.heap e.1.usdAddr = some e.2.2

instance (s : RunnerState) : Decidable (publishedResultsIntact s) := by
  unfold publishedResultsIntact; infer_instance

/-- Whether an operation is a run that refreshes the working context
(non-run operations count as harmless). -/
def opRefreshes : Op → Bool
  | Op.runChecks _ _ r _ _ _ => r
  | Op.reset => true
  | Op.stopReq => true

/-- All run operations of a session pass `refresh_context=True`. -/
def allRunsRefresh (ops : List Op) : Prop := ∀ op ∈ ops, opRefreshes op = true

instance (ops : List Op) : Decidable (allRunsRefresh ops) := by
  unfold allRunsRefresh; infer_instance

/-- Selection output for component granularity: one entry per failing
component, each the owning entity's resolved name followed by the component
suffix of the check's granularity. -/
def perComponentSelection (lookup : String → Option String) (nt : NodeType)
    (m : List (String × List Nat)) : Prop :=
  (format_maya_data lookup nt (MayaData.comps m)).length =
      specCountIssues (MayaData.comps m) ∧
  ∀ e ∈ format_maya_data lookup nt (MayaData.comps m),
    ∃ p ∈ m, ∃ c ∈ p.2, e = pyStrOpt (lookup p.1) ++ formatComponent nt c

/-- Invariant carried across a session in which every run refreshes the
context: well-formed heap, and every published result still dereferences to
its published snapshot at addresses below the allocation counter. -/
def C8Inv (s : RunnerState) : Prop :=
  heapWF s.heap ∧
  ∀ e ∈ s.emitted,
    e.1.mayaAddr < s.heap.next ∧ e.1.usdAddr < s.heap.next ∧
    lookupMaya s.heap e.1.mayaAddr = some e.2.1 ∧
    lookupUsd s.heap e.1.usdAddr = some e.2.2

instance (s : RunnerState) : Decidable (C8Inv s) := by
  unfold C8Inv heapWF; infer_instance

/-! ### Concrete instances used by witnesses and counterexamples -/

/-- A uuid assignment for concrete scenes (uuids never start with a pipe). -/
def uuidW : String → String := fun s => "u" ++ s

/-- A name lookup that resolves the uuid `u` to the name `ent`. -/
def lookupW : String → Option String := fun u => if u = "u" then some "ent" else none

/-- A scene whose single transform owns two mesh shapes. -/
def sceneDup : List Transform :=
  [{ name := "|a",
     shapes := [{ path := "|a|aShape1", shapeNodeType := "mesh", primPaths := [] },
                { path := "|a|aShape2", shapeNodeType := "mesh", primPaths := [] }] }]

/-- A scene containing a default camera and one mesh transform. -/
def sceneW : List Transform :=
  [{ name := "|front",
     shapes := [{ path := "|front|frontShape", shapeNodeType := "camera", primPaths := [] }] },
   { name := "|a",
     shapes := [{ path := "|a|aShape", shapeNodeType := "mesh", primPaths := [] }] }]

/-- A Maya-only check flagging one node. -/
def cW1 : Check :=
  { name := "c1", dataType := some DataType.maya,
    mayaResult := MayaData.nodes ["bad1"], usdResult := [], cacheWrites := [] }

/-- A second Maya-only check flagging another node. -/
def cW2 : Check :=
  { name := "c2", dataType := some DataType.maya,
    mayaResult := MayaData.nodes ["bad2"], usdResult := [], cacheWrites := [] }

/-- A run of `cW1` over the selection `["a"]` with a context refresh. -/
def opW1 : Op := Op.runChecks [cW1] DataType.both true ["a"] [] none

/-- A run of `cW2` over the same selection without a context refresh. -/
def opW2 : Op := Op.runChecks [cW2] DataType.both false ["a"] [] none

/-- A run of `cW2` over the same selection with a context refresh. -/
def opW3 : Op := Op.runChecks [cW2] DataType.both true ["a"] [] none

/-- A family of five Maya-only checks named `c1` … `c5`. -/
def mkCheckW (i : Nat) : Check :=
  { name := "c" ++ toString i, dataType := some DataType.maya,
    mayaResult := MayaData.nodes ["x"], usdResult := [], cacheWrites := [] }

/-- Five scheduled checks. -/
def fiveChecksW : List Check := [mkCheckW 1, mkCheckW 2, mkCheckW 3, mkCheckW 4, mkCheckW 5]

/-!
## Theorems

Shared lemmas come first; each claim's theorems follow, marked with the
claim id in their doc comment.
-/

theorem mem_dictKeys {α : Type} (d : List (String × α)) (nm : String) :
    nm ∈ dictKeys d ↔ ∃ v, (nm, v) ∈ d := by
  unfold dictKeys
  constructor
  · intro h
    rcases List.mem_map.mp h with ⟨p, hp, he⟩
    exact ⟨p.2, by simpa [← he] using hp⟩
  · rintro ⟨v, hv⟩
    exact List.mem_map.mpr ⟨(nm, v), hv, rfl⟩

theorem mem_dictKeys_dictSet {α : Type} (d : List (String × α)) (k : String)
    (v : α) (nm : String) :
    nm ∈ dictKeys (dictSet d k v) ↔ nm ∈ dictKeys d ∨ nm = k := by
  unfold dictKeys dictSet
  by_cases h : (d.map Prod.fst).contains k
  · have hk : k ∈ d.map Prod.fst := by simpa using h
    have hmap : (d.map (fun p => if p.1 = k then (k, v) else p)).map Prod.fst
        = d.map Prod.fst := by
      rw [List.map_map]
      refine List.map_congr_left ?_
      intro p _
      by_cases hp : p.1 = k <;> simp [hp]
    rw [if_pos h, hmap]
    constructor
    · exact Or.inl
    · rintro (hm | rfl)
      · exact hm
      · exact hk
  · rw [if_neg h, List.map_append]
    simp

theorem updAt_map_fst {β : Type} (l : List (Addr × β)) (a : Addr) (f : β → β) :
    (updAt l a f).map Prod.fst = l.map Prod.fst := by
  unfold updAt
  rw [List.map_map]
  refine List.map_congr_left ?_
  intro p _
  by_cases hp : p.1 = a <;> simp [hp]

theorem lookup_updAt_self {β : Type} (l : List (Addr × β)) (a : Addr) (f : β → β) :
    List.lookup a (updAt l a f) = (List.lookup a l).map f := by
  induction l with
  | nil => rfl
  | cons p t ih =>
    obtain ⟨k, w⟩ := p
    by_cases hp : k = a
    · subst hp
      have hhead : (fun p : Addr × β => if p.1 = k then (p.1, f p.2) else p) (k, w)
          = (k, f w) := by simp
      simp only [updAt, List.map_cons, hhead]
      simp [List.lookup]
    · have hb : (a == k) = false := by simp [Ne.symm hp]
      simp only [updAt, List.map_cons] at ih ⊢
      rw [if_neg hp]
      simp only [List.lookup, hb]
      exact ih

theorem lookup_updAt_ne {β : Type} (l : List (Addr × β)) (a b : Addr)
    (f : β → β) (hne : a ≠ b) :
    List.lookup a (updAt l b f) = List.lookup a l := by
  induction l with
  | nil => rfl
  | cons p t ih =>
    obtain ⟨k, w⟩ := p
    simp only [updAt, List.map_cons] at ih ⊢
    by_cases hp : k = b
    · subst hp
      have hb : (a == k) = false := by simp [hne]
      simp only [if_pos]
      simp only [List.lookup, hb]
      exact ih
    · rw [if_neg hp]
      cases hb : (a == k) with
      | false => simp only [List.lookup, hb]; exact ih
      | true => simp only [List.lookup, hb]

theorem lookup_append_assoc {β : Type} (l l' : List (Addr × β)) (a : Addr) :
    List.lookup a (l ++ l') = Option.or (List.lookup a l) (List.lookup a l') := by
  induction l with
  | nil => simp [List.lookup]
  | cons p t ih =>
    obtain ⟨k, w⟩ := p
    cases hb : (a == k) <;> simp only [List.cons_append, List.lookup, hb] <;> simp [ih]

theorem lookup_eq_none_of_not_mem_fst {β : Type} (l : List (Addr × β)) (a : Addr)
    (h : a ∉ l.map Prod.fst) :
    List.lookup a l = none := by
  induction l with
  | nil => rfl
  | cons p t ih =>
    obtain ⟨k, w⟩ := p
    have h1 : a ≠ k := by
      intro he
      exact h (by simp [he])
    have hb : (a == k) = false := by simp [h1]
    have h2 : a ∉ t.map Prod.fst := fun hm => h (by simp [hm])
    simp only [List.lookup, hb]
    exact ih h2

/-- C1 counterexample: for the stored component-granularity result
mapping one entity to two failing components, the Overview rendering
displays "1 issue" (the number of entities, `len(context)`), while the
sum of component-list lengths is 2. -/
theorem C1_counterexample :
    render_maya_data_html lookupW "Check" NodeType.face
        (MayaData.comps [("u", [1, 3])]) 0 =
      "<br>&#10752; Check<font color=#9c4f4f> [ FAILED ] - 1 issue</font><br><br>" ∧
    specCountIssues (MayaData.comps [("u", [1, 3])]) = 2 ∧
    MayaData.pyLen (MayaData.comps [("u", [1, 3])]) ≠
      specCountIssues (MayaData.comps [("u", [1, 3])]) := by
  refine ⟨rfl, rfl, by decide⟩

/-- C1 (amended): for every failing component-granularity result, the
issue count shown by the Overview rendering is the number of failing
entities (the number of keys of the stored map), not the sum of the
component-list lengths. -/
theorem C1_theorem (lookup : String → Option String) (label : String)
    (nt : NodeType) (m : List (String × List Nat)) (h : m ≠ []) :
    render_maya_data_html lookup label nt (MayaData.comps m) 0 =
      "<br>" ++ ("&#10752; " ++ label ++ "<font color=#9c4f4f> [ FAILED ] - " ++
        toString m.length ++ " " ++
        (if m.length = 1 then ("issue") else ("issues")) ++ "</font><br>") ++ "<br>" := by
  have hne : (MayaData.comps m).isEmptyData = false := by
    simp [MayaData.isEmptyData, h]
  simp [render_maya_data_html, hne, MayaData.pyLen]

/-- C1 witness: the amended statement evaluated on a concrete two-entity
result. -/
theorem C1_witness :
    ([("e1", [0]), ("e2", [2])] : List (String × List Nat)) ≠ [] ∧
    render_maya_data_html lookupW "Check" NodeType.face
        (MayaData.comps [("e1", [0]), ("e2", [2])]) 0 =
      "<br>" ++ ("&#10752; " ++ "Check" ++ "<font color=#9c4f4f> [ FAILED ] - " ++
        toString ([("e1", [0]), ("e2", [2])] : List (String × List Nat)).length ++ " " ++
        (if ([("e1", [0]), ("e2", [2])] : List (String × List Nat)).length = 1
         then ("issue") else ("issues")) ++ "</font><br>") ++ "<br>" :=
  ⟨by decide, C1_theorem lookupW "Check" NodeType.face [("e1", [0]), ("e2", [2])] (by decide)⟩

/-- C5 counterexample: for a component-granularity result mapping one
entity to two failing components, the selection flattening produces two
component entries, not the owning entity once. -/
theorem C5_counterexample :
    format_maya_data lookupW NodeType.face (MayaData.comps [("u", [1, 3])]) =
      ["ent.f[1]", "ent.f[3]"] ∧
    format_maya_data lookupW NodeType.face (MayaData.comps [("u", [1, 3])]) ≠
      ["ent"] := by
  refine ⟨rfl, by decide⟩

/-- C5 (amended): for every component-granularity result, the selection
flattening produces one entry per failing component — the owning entity's
resolved name suffixed with the component index in the check's granularity
syntax — so an entity appears once per failing component, not once in
total. -/
theorem C5_theorem (lookup : String → Option String) (nt : NodeType)
    (m : List (String × List Nat)) (h : nt ≠ NodeType.node) :
    perComponentSelection lookup nt m := by
  unfold perComponentSelection
  by_cases hm : (MayaData.comps m).isEmptyData = true
  · have hm0 : m = [] := by
      simpa [MayaData.isEmptyData] using hm
    subst hm0
    simp [format_maya_data, specCountIssues]
  · have hred : format_maya_data lookup nt (MayaData.comps m) =
        m.flatMap (fun p => p.2.map (fun c => pyStrOpt (lookup p.1) ++ formatComponent nt c)) := by
      cases nt with
      | node => exact absurd rfl h
      | uv => simp [format_maya_data, hm]
      | vertex => simp [format_maya_data, hm]
      | edge => simp [format_maya_data, hm]
      | face => simp [format_maya_data, hm]
    rw [hred]
    constructor
    · rw [List.length_flatMap]
      unfold specCountIssues
      congr 1
      refine List.map_congr_left ?_
      intro p _
      simp
    · intro e he
      rcases List.mem_flatMap.mp he with ⟨p, hp, hein⟩
      rcases List.mem_map.mp hein with ⟨c, hc, hce⟩
      exact ⟨p, hp, c, hc, hce.symm⟩

/-- C5 witness: the amended statement evaluated on a concrete
face-granularity result. -/
theorem C5_witness :
    NodeType.face ≠ NodeType.node ∧ perComponentSelection lookupW NodeType.face [("u", [1, 3])] :=
  ⟨by decide, C5_theorem lookupW NodeType.face [("u", [1, 3])] (by decide)⟩

/-- C9: rendering a fixed stored result at a fixed verbosity twice in a
row (threading the check object's state through the first call) yields an
unchanged object state and byte-identical output, for both the Maya and
the USD renderer — the renderers read only their inputs and the check's
immutable attributes. -/
theorem C9_theorem (lookup : String → Option String) (self : CheckObjState)
    (context : MayaData) (verbosity : Nat) (label : String)
    (usdCtx : List String) (lastFailed : Bool) :
    (render_maya_data_html_method lookup self context verbosity).2 = self ∧
    (render_maya_data_html_method lookup
        (render_maya_data_html_method lookup self context verbosity).2
        context verbosity).1 =
      (render_maya_data_html_method lookup self context verbosity).1 ∧
    render_usd_data_html label usdCtx verbosity lastFailed =
      render_usd_data_html label usdCtx verbosity lastFailed :=
  ⟨rfl, rfl, rfl⟩

/-- C7: a scene with one transform owning two mesh shapes makes
`get_all_nodes` append the transform's uuid once per shape, so the
whole-scene native-entity sequence holds the same entity twice — the
deduplication invariant fails. -/
theorem C7_theorem :
    get_all_nodes uuidW sceneDup = ["u|a", "u|a"] ∧
    ¬ (get_all_nodes uuidW sceneDup).Nodup ∧
    (setup_context initState [] (get_all_nodes uuidW sceneDup) DataType.both).nodes =
      ["u|a", "u|a"] := by
  refine ⟨by decide, by decide, by decide⟩

/-- C10: `get_name_from_uuid` accepts only the parameter `uuid`, so the
call `get_name_from_uuid(node, long=False)` made by `Runner.get_mesh_shapes`
(on a cache miss) and by the section-header node rendering raises a
`TypeError` whenever at least one native node is present. -/
theorem C10_theorem :
    bindsOk getNameFromUuidParams 1 ["long"] = false ∧
    get_mesh_shapes (fun _ => none) (fun _ => []) [] ["n1"] =
      Except.error ⟨"get_name_from_uuid() got an unexpected keyword argument"⟩ ∧
    rendered_nodes_maya (fun _ => none) ["n1"] =
      Except.error ⟨"get_name_from_uuid() got an unexpected keyword argument"⟩ := by
  refine ⟨by decide, rfl, rfl⟩

/-- C4 counterexample: `_setup_context` leaves a populated per-pass cache
untouched — it does not empty it. -/
theorem C4_counterexample :
    (setup_context { initState with cachedData := [("mesh_shapes", ["meshA"])] }
        ["a"] [] DataType.both).cachedData = [("mesh_shapes", ["meshA"])] ∧
    ([("mesh_shapes", ["meshA"])] : List (String × List String)) ≠ [] := by
  refine ⟨rfl, by decide⟩

theorem resolvedContext_cases (s : RunnerState) (r : Bool)
    (sel scene : List String) (dt : DataType) :
    resolvedContext s r sel scene dt = setup_context s sel scene dt ∨
    resolvedContext s r sel scene dt = s := by
  unfold resolvedContext
  split
  · exact Or.inl rfl
  · exact Or.inr rfl

theorem resolvedContext_cachedData (s : RunnerState) (r : Bool)
    (sel scene : List String) (dt : DataType) :
    (resolvedContext s r sel scene dt).cachedData = s.cachedData := by
  rcases resolvedContext_cases s r sel scene dt with h | h
  · rw [h]
    rfl
  · rw [h]

theorem storeStep_next (dt : DataType) (h : Heap) (mA uA : Addr) (c : Check) :
    (storeStep dt h mA uA c).next = h.next := by
  unfold storeStep
  by_cases hM : storableM dt c <;> by_cases hU : storableU dt c <;>
    simp [hM, hU, storeMaya, storeUsd]

theorem storeStep_maya_fst (dt : DataType) (h : Heap) (mA uA : Addr) (c : Check) :
    (storeStep dt h mA uA c).maya.map Prod.fst = h.maya.map Prod.fst := by
  unfold storeStep
  by_cases hM : storableM dt c <;> by_cases hU : storableU dt c <;>
    simp [hM, hU, storeMaya, storeUsd, updAt_map_fst]

theorem storeStep_usd_fst (dt : DataType) (h : Heap) (mA uA : Addr) (c : Check) :
    (storeStep dt h mA uA c).usd.map Prod.fst = h.usd.map Prod.fst := by
  unfold storeStep
  by_cases hM : storableM dt c <;> by_cases hU : storableU dt c <;>
    simp [hM, hU, storeMaya, storeUsd, updAt_map_fst]

theorem storeStep_lookupM (dt : DataType) (h : Heap) (mA uA : Addr) (c : Check) :
    lookupMaya (storeStep dt h mA uA c) mA =
      (lookupMaya h mA).map
        (fun m => if storableM dt c then dictSet m c.name c.mayaResult else m) := by
  unfold storeStep lookupMaya
  by_cases hM : storableM dt c <;> by_cases hU : storableU dt c <;>
    simp [hM, hU, storeMaya, storeUsd, lookup_updAt_self]

theorem storeStep_lookupU (dt : DataType) (h : Heap) (mA uA : Addr) (c : Check) :
    lookupUsd (storeStep dt h mA uA c) uA =
      (lookupUsd h uA).map
        (fun m => if storableU dt c then dictSet m c.name c.usdResult else m) := by
  unfold storeStep lookupUsd
  by_cases hM : storableM dt c <;> by_cases hU : storableU dt c <;>
    simp [hM, hU, storeMaya, storeUsd, lookup_updAt_self]

theorem storeStep_lookupM_ne (dt : DataType) (h : Heap) (mA uA a : Addr)
    (c : Check) (hne : a ≠ mA) :
    lookupMaya (storeStep dt h mA uA c) a = lookupMaya h a := by
  unfold storeStep lookupMaya
  by_cases hM : storableM dt c <;> by_cases hU : storableU dt c <;>
    simp [hM, hU, storeMaya, storeUsd, lookup_updAt_ne _ _ _ _ hne]

theorem storeStep_lookupU_ne (dt : DataType) (h : Heap) (mA uA a : Addr)
    (c : Check) (hne : a ≠ uA) :
    lookupUsd (storeStep dt h mA uA c) a = lookupUsd h a := by
  unfold storeStep lookupUsd
  by_cases hM : storableM dt c <;> by_cases hU : storableU dt c <;>
    simp [hM, hU, storeMaya, storeUsd, lookup_updAt_ne _ _ _ _ hne]

theorem runStep_frame (dt : DataType) (sa : Option Nat) (mA uA : Addr)
    (s : RunnerState) (c : Check) (idx : Nat) :
    (runStep dt sa mA uA s c idx).emitted = s.emitted ∧
    (runStep dt sa mA uA s c idx).errors = s.errors ∧
    (runStep dt sa mA uA s c idx).resultObject = s.resultObject ∧
    (runStep dt sa mA uA s c idx).nodes = s.nodes ∧
    (runStep dt sa mA uA s c idx).usdNodes = s.usdNodes ∧
    (runStep dt sa mA uA s c idx).scheduledChecksAmount = s.scheduledChecksAmount ∧
    (runStep dt sa mA uA s c idx).currentContext = s.currentContext ∧
    (runStep dt sa mA uA s c idx).allAddrs = s.allAddrs ∧
    (runStep dt sa mA uA s c idx).selAddrs = s.selAddrs ∧
    (runStep dt sa mA uA s c idx).heap = storeStep dt s.heap mA uA c := by
  simp only [runStep]
  by_cases hS : sa = some (idx + 1)
  · rw [if_pos hS]
    exact ⟨rfl, rfl, rfl, rfl, rfl, rfl, rfl, rfl, rfl, rfl⟩
  · rw [if_neg hS]
    exact ⟨rfl, rfl, rfl, rfl, rfl, rfl, rfl, rfl, rfl, rfl⟩

theorem runLoop_frame (dt : DataType) (sa : Option Nat) (mA uA : Addr) :
    ∀ (cs : List Check) (s : RunnerState) (idx : Nat),
    (runLoop dt sa mA uA s cs idx).emitted = s.emitted ∧
    (runLoop dt sa mA uA s cs idx).errors = s.errors ∧
    (runLoop dt sa mA uA s cs idx).resultObject = s.resultObject ∧
    (runLoop dt sa mA uA s cs idx).nodes = s.nodes ∧
    (runLoop dt sa mA uA s cs idx).usdNodes = s.usdNodes ∧
    (runLoop dt sa mA uA s cs idx).scheduledChecksAmount = s.scheduledChecksAmount ∧
    (runLoop dt sa mA uA s cs idx).currentContext = s.currentContext ∧
    (runLoop dt sa mA uA s cs idx).allAddrs = s.allAddrs ∧
    (runLoop dt sa mA uA s cs idx).selAddrs = s.selAddrs ∧
    (runLoop dt sa mA uA s cs idx).heap.next = s.heap.next ∧
    (runLoop dt sa mA uA s cs idx).heap.maya.map Prod.fst = s.heap.maya.map Prod.fst ∧
    (runLoop dt sa mA uA s cs idx).heap.usd.map Prod.fst = s.heap.usd.map Prod.fst := by
  intro cs
  induction cs with
  | nil =>
    intro s idx
    exact ⟨rfl, rfl, rfl, rfl, rfl, rfl, rfl, rfl, rfl, rfl, rfl, rfl⟩
  | cons c rest ih =>
    intro s idx
    by_cases hI : s.interrupt = true
    · simp only [runLoop]
      rw [if_pos hI]
      exact ⟨rfl, rfl, rfl, rfl, rfl, rfl, rfl, rfl, rfl, rfl, rfl, rfl⟩
    · simp only [runLoop]
      rw [if_neg hI]
      obtain ⟨e1, e2, e3, e4, e5, e6, e7, e8, e9, e10, e11, e12⟩ :=
        ih (runStep dt sa mA uA s c idx) (idx + 1)
      obtain ⟨f1, f2, f3, f4, f5, f6, f7, f8, f9, f10⟩ :=
        runStep_frame dt sa mA uA s c idx
      refine ⟨e1.trans f1, e2.trans f2, e3.trans f3, e4.trans f4, e5.trans f5,
        e6.trans f6, e7.trans f7, e8.trans f8, e9.trans f9, ?_, ?_, ?_⟩
      · rw [e10, f10, storeStep_next]
      · rw [e11, f10, storeStep_maya_fst]
      · rw [e12, f10, storeStep_usd_fst]

theorem runOp_cachedData (s : RunnerState) (cs : List Check) (dt : DataType)
    (r : Bool) (sel scene : List String) (sa : Option Nat) :
    (runOp s cs dt r sel scene sa).cachedData = [] ∨
    (runOp s cs dt r sel scene sa).cachedData = s.cachedData := by
  unfold runOp
  split
  · exact Or.inr (resolvedContext_cachedData s r sel scene dt)
  · split
    · exact Or.inr (resolvedContext_cachedData s r sel scene dt)
    · exact Or.inl rfl

theorem applyOp_cachedData (s : RunnerState) (op : Op) :
    (applyOp s op).cachedData = [] ∨ (applyOp s op).cachedData = s.cachedData := by
  cases op with
  | runChecks cs dt r sel scene sa => exact runOp_cachedData s cs dt r sel scene sa
  | reset => left; rfl
  | stopReq =>
      right
      unfold applyOp stopOp
      cases s.currentCheck <;> rfl

/-- C4 (amended): `_setup_context` does not touch the per-pass cache;
instead `_post_run` clears it at the end of every completed run, and the
setup-error paths never populate it, so over every session of runner
operations the cache is empty whenever the runner is idle — in particular
at the start and at the end of every run, and no cached derived data
survives into a run over a different working context. -/
theorem C4_theorem :
    (∀ (s : RunnerState) (sel scene : List String) (dt : DataType),
      (setup_context s sel scene dt).cachedData = s.cachedData) ∧
    (∀ ops : List Op, (runTrace ops).cachedData = []) := by
  constructor
  · intro s sel scene dt
    rfl
  · intro ops
    have main : ∀ (l : List Op) (s : RunnerState), s.cachedData = [] →
        (l.foldl applyOp s).cachedData = [] := by
      intro l
      induction l with
      | nil => intro s h; simpa using h
      | cons op t ih =>
        intro s h
        rcases applyOp_cachedData s op with h1 | h1
        · exact ih _ h1
        · exact ih _ (h1.trans h)
    exact main ops initState rfl

theorem resolvedContext_emitted (s : RunnerState) (r : Bool)
    (sel scene : List String) (dt : DataType) :
    (resolvedContext s r sel scene dt).emitted = s.emitted := by
  rcases resolvedContext_cases s r sel scene dt with h | h
  · rw [h]
    rfl
  · rw [h]

theorem loopState_emitted (s1 : RunnerState) (cs : List Check) (dt : DataType)
    (sa : Option Nat) :
    (loopState s1 cs dt sa).emitted = s1.emitted :=
  (runLoop_frame dt sa (ctxAddrs s1 s1.currentContext).1
    (ctxAddrs s1 s1.currentContext).2 cs
    { s1 with scheduledChecksAmount := cs.length } 0).1

theorem loopState_scheduled (s1 : RunnerState) (cs : List Check) (dt : DataType)
    (sa : Option Nat) :
    (loopState s1 cs dt sa).scheduledChecksAmount = cs.length :=
  (runLoop_frame dt sa (ctxAddrs s1 s1.currentContext).1
    (ctxAddrs s1 s1.currentContext).2 cs
    { s1 with scheduledChecksAmount := cs.length } 0).2.2.2.2.2.1

theorem mainRun_emitted (s1 : RunnerState) (cs : List Check) (dt : DataType)
    (sa : Option Nat) :
    (mainRun s1 cs dt sa).emitted = s1.emitted ++
      [(mainResult s1 cs dt sa, mainSnapM s1 cs dt sa, mainSnapU s1 cs dt sa)] := by
  show (loopState s1 cs dt sa).emitted ++ _ = _
  rw [loopState_emitted]

theorem mainResult_checksAmount (s1 : RunnerState) (cs : List Check)
    (dt : DataType) (sa : Option Nat) :
    (mainResult s1 cs dt sa).checksAmount = cs.length :=
  loopState_scheduled s1 cs dt sa

theorem runOp_emitted (s : RunnerState) (cs : List Check) (dt : DataType)
    (r : Bool) (sel scene : List String) (sa : Option Nat) :
    (runOp s cs dt r sel scene sa).emitted = s.emitted ∨
    (cs ≠ [] ∧ ∃ e : RunResultObj × MayaMap × UsdMap,
      (runOp s cs dt r sel scene sa).emitted = s.emitted ++ [e] ∧
      e.1.checksAmount = cs.length) := by
  unfold runOp
  split
  · exact Or.inl (resolvedContext_emitted s r sel scene dt)
  · split
    · exact Or.inl (resolvedContext_emitted s r sel scene dt)
    · rename_i hne
      refine Or.inr ⟨fun hcs => hne (by simp [hcs]),
        (mainResult (resolvedContext s r sel scene dt) cs dt sa,
         mainSnapM (resolvedContext s r sel scene dt) cs dt sa,
         mainSnapU (resolvedContext s r sel scene dt) cs dt sa), ?_, ?_⟩
      · rw [mainRun_emitted, resolvedContext_emitted]
      · exact mainResult_checksAmount _ cs dt sa

theorem applyOp_noZero (s : RunnerState) (op : Op) (h : noZeroCheckResults s) :
    noZeroCheckResults (applyOp s op) := by
  cases op with
  | runChecks cs dt r sel scene sa =>
    rcases runOp_emitted s cs dt r sel scene sa with he | ⟨hcs, e, he, hca⟩
    · intro x hx
      simp only [applyOp] at hx
      exact h x (by rwa [he] at hx)
    · intro x hx
      simp only [applyOp] at hx
      rw [he] at hx
      rcases List.mem_append.mp hx with hx | hx
      · exact h x hx
      · have hxe : x = e := by simpa using hx
        rw [hxe, hca]
        exact List.length_pos.mpr hcs
  | reset =>
    intro x hx
    exact h x hx
  | stopReq =>
    intro x hx
    unfold applyOp stopOp at hx
    cases hc : s.currentCheck with
    | some nm => rw [hc] at hx; exact h x hx
    | none => rw [hc] at hx; exact h x hx

/-- C2: when the resolved working context has neither native nor external
entities, or the supplied enabled-check list is empty, `run()` only emits a
setup-error message — the state is otherwise untouched, so no check is
evaluated and no result object is produced or published; and across every
session, no published result ever covers zero checks. -/
theorem C2_theorem :
    (∀ (s : RunnerState) (checks : List Check) (dt : DataType) (r : Bool)
        (sel scene : List String) (sa : Option Nat),
      (((resolvedContext s r sel scene dt).nodes.isEmpty &&
        (resolvedContext s r sel scene dt).usdNodes.isEmpty) = true ∨ checks = []) →
      runOp s checks dt r sel scene sa =
        error_run (resolvedContext s r sel scene dt)
          (if ((resolvedContext s r sel scene dt).nodes.isEmpty &&
               (resolvedContext s r sel scene dt).usdNodes.isEmpty) = true
           then ("No Nodes to tests") else ("No Checks enabled"))) ∧
    (∀ ops : List Op, noZeroCheckResults (runTrace ops)) := by
  constructor
  · intro s checks dt r sel scene sa hyp
    by_cases hA : ((resolvedContext s r sel scene dt).nodes.isEmpty &&
        (resolvedContext s r sel scene dt).usdNodes.isEmpty) = true
    · unfold runOp
      rw [if_pos hA, if_pos hA]
    · rcases hyp with hyp | hyp
      · exact absurd hyp hA
      · subst hyp
        unfold runOp
        rw [if_neg hA, if_neg hA, if_pos (show (([] : List Check).isEmpty) = true from rfl)]
  · intro ops
    have main : ∀ (l : List Op) (s : RunnerState), noZeroCheckResults s →
        noZeroCheckResults (l.foldl applyOp s) := by
      intro l
      induction l with
      | nil => intro s h; simpa using h
      | cons op t ih => intro s h; exact ih _ (applyOp_noZero s op h)
    exact main ops initState (fun e he => absurd he (by simp [initState]))

/-- C2 witness: a run over an empty scene with one scheduled check takes
the no-nodes error path. -/
theorem C2_witness :
    (((resolvedContext initState true [] [] DataType.both).nodes.isEmpty &&
      (resolvedContext initState true [] [] DataType.both).usdNodes.isEmpty) = true ∨
      ([cW1] : List Check) = []) ∧
    runOp initState [cW1] DataType.both true [] [] none =
      error_run (resolvedContext initState true [] [] DataType.both)
        (if ((resolvedContext initState true [] [] DataType.both).nodes.isEmpty &&
             (resolvedContext initState true [] [] DataType.both).usdNodes.isEmpty) = true
         then ("No Nodes to tests") else ("No Checks enabled")) :=
  ⟨Or.inl (by decide),
   C2_theorem.1 initState [cW1] DataType.both true [] [] none (Or.inl (by decide))⟩

theorem runLoop_of_interrupt (dt : DataType) (sa : Option Nat) (mA uA : Addr)
    (cs : List Check) (s : RunnerState) (idx : Nat) (h : s.interrupt = true) :
    runLoop dt sa mA uA s cs idx = s := by
  cases cs with
  | nil => rfl
  | cons c rest =>
    simp only [runLoop]
    rw [if_pos h]

theorem storeNamesM_cons (dt : DataType) (mm : MayaMap) (c : Check) (cs : List Check) :
    storeNamesM dt mm (c :: cs) =
      storeNamesM dt (if storableM dt c then dictSet mm c.name c.mayaResult else mm) cs := rfl

theorem storeNamesU_cons (dt : DataType) (uu : UsdMap) (c : Check) (cs : List Check) :
    storeNamesU dt uu (c :: cs) =
      storeNamesU dt (if storableU dt c then dictSet uu c.name c.usdResult else uu) cs := rfl

theorem mem_dictKeys_storeNamesM (dt : DataType) :
    ∀ (cs : List Check) (mm : MayaMap) (nm : String),
      nm ∈ dictKeys (storeNamesM dt mm cs) ↔
      nm ∈ dictKeys mm ∨ ∃ c ∈ cs, storableM dt c ∧ nm = c.name := by
  intro cs
  induction cs with
  | nil =>
    intro mm nm
    simp [storeNamesM]
  | cons c rest ih =>
    intro mm nm
    rw [storeNamesM_cons, ih]
    by_cases hM : storableM dt c
    · rw [if_pos hM]
      rw [mem_dictKeys_dictSet]
      constructor
      · rintro ((h | h) | ⟨c', hc', hs', rfl⟩)
        · exact Or.inl h
        · exact Or.inr ⟨c, List.mem_cons_self c rest, hM, h⟩
        · exact Or.inr ⟨c', List.mem_cons_of_mem c hc', hs', rfl⟩
      · rintro (h | ⟨c', hc', hs', rfl⟩)
        · exact Or.inl (Or.inl h)
        · rcases List.mem_cons.mp hc' with rfl | hc'
          · exact Or.inl (Or.inr rfl)
          · exact Or.inr ⟨c', hc', hs', rfl⟩
    · rw [if_neg hM]
      constructor
      · rintro (h | ⟨c', hc', hs', rfl⟩)
        · exact Or.inl h
        · exact Or.inr ⟨c', List.mem_cons_of_mem c hc', hs', rfl⟩
      · rintro (h | ⟨c', hc', hs', rfl⟩)
        · exact Or.inl h
        · rcases List.mem_cons.mp hc' with rfl | hc'
          · exact absurd hs' hM
          · exact Or.inr ⟨c', hc', hs', rfl⟩

theorem mem_dictKeys_storeNamesU (dt : DataType) :
    ∀ (cs : List Check) (uu : UsdMap) (nm : String),
      nm ∈ dictKeys (storeNamesU dt uu cs) ↔
      nm ∈ dictKeys uu ∨ ∃ c ∈ cs, storableU dt c ∧ nm = c.name := by
  intro cs
  induction cs with
  | nil =>
    intro uu nm
    simp [storeNamesU]
  | cons c rest ih =>
    intro uu nm
    rw [storeNamesU_cons, ih]
    by_cases hU : storableU dt c
    · rw [if_pos hU]
      rw [mem_dictKeys_dictSet]
      constructor
      · rintro ((h | h) | ⟨c', hc', hs', rfl⟩)
        · exact Or.inl h
        · exact Or.inr ⟨c, List.mem_cons_self c rest, hU, h⟩
        · exact Or.inr ⟨c', List.mem_cons_of_mem c hc', hs', rfl⟩
      · rintro (h | ⟨c', hc', hs', rfl⟩)
        · exact Or.inl (Or.inl h)
        · rcases List.mem_cons.mp hc' with rfl | hc'
          · exact Or.inl (Or.inr rfl)
          · exact Or.inr ⟨c', hc', hs', rfl⟩
    · rw [if_neg hU]
      constructor
      · rintro (h | ⟨c', hc', hs', rfl⟩)
        · exact Or.inl h
        · exact Or.inr ⟨c', List.mem_cons_of_mem c hc', hs', rfl⟩
      · rintro (h | ⟨c', hc', hs', rfl⟩)
        · exact Or.inl h
        · rcases List.mem_cons.mp hc' with rfl | hc'
          · exact absurd hs' hU
          · exact Or.inr ⟨c', hc', hs', rfl⟩

theorem runStep_cases (dt : DataType) (sa : Option Nat) (mA uA : Addr)
    (s : RunnerState) (c : Check) (idx : Nat) :
    runStep dt sa mA uA s c idx =
      (if sa = some (idx + 1) then
        { s with
            currentCheck := some c.name
            currentNumberCheck := idx + 1
            cachedData := applyCacheWrites s.cachedData c.cacheWrites
            heap := storeStep dt s.heap mA uA c
            interrupt := true }
      else
        { s with
            currentCheck := some c.name
            currentNumberCheck := idx + 1
            cachedData := applyCacheWrites s.cachedData c.cacheWrites
            heap := storeStep dt s.heap mA uA c }) := by
  simp only [runStep]
  by_cases hS : sa = some (idx + 1)
  · rw [if_pos hS, if_pos hS]
    rfl
  · rw [if_neg hS, if_neg hS]

theorem runLoop_stop_spec (dt : DataType) (mA uA : Addr) (k : Nat) :
    ∀ (cs : List Check) (s : RunnerState) (idx : Nat) (mm : MayaMap) (uu : UsdMap),
      s.interrupt = false → idx < k → k ≤ idx + cs.length →
      lookupMaya s.heap mA = some mm → lookupUsd s.heap uA = some uu →
      (runLoop dt (some k) mA uA s cs idx).interrupt = true ∧
      (runLoop dt (some k) mA uA s cs idx).currentNumberCheck = k ∧
      lookupMaya (runLoop dt (some k) mA uA s cs idx).heap mA =
        some (storeNamesM dt mm (cs.take (k - idx))) ∧
      lookupUsd (runLoop dt (some k) mA uA s cs idx).heap uA =
        some (storeNamesU dt uu (cs.take (k - idx))) := by
  intro cs
  induction cs with
  | nil =>
    intro s idx mm uu _ h1 h2 _ _
    simp only [List.length_nil] at h2
    omega
  | cons c rest ih =>
    intro s idx mm uu hI h1 h2 hmm huu
    have h2' : k ≤ idx + 1 + rest.length := by
      simp only [List.length_cons] at h2
      omega
    simp only [runLoop]
    rw [if_neg (by rw [hI]; exact Bool.false_ne_true)]
    have hstep := runStep_cases dt (some k) mA uA s c idx
    have hM : lookupMaya (storeStep dt s.heap mA uA c) mA =
        some (if storableM dt c then dictSet mm c.name c.mayaResult else mm) := by
      rw [storeStep_lookupM, hmm]
      rfl
    have hU : lookupUsd (storeStep dt s.heap mA uA c) uA =
        some (if storableU dt c then dictSet uu c.name c.usdResult else uu) := by
      rw [storeStep_lookupU, huu]
      rfl
    by_cases hk : k = idx + 1
    · subst hk
      rw [hstep, if_pos rfl]
      rw [runLoop_of_interrupt dt (some (idx + 1)) mA uA rest _ (idx + 1) rfl]
      have htake : (c :: rest).take (idx + 1 - idx) = [c] := by
        have : idx + 1 - idx = 1 := by omega
        rw [this]
        rfl
      rw [htake]
      exact ⟨rfl, rfl, hM, hU⟩
    · rw [hstep, if_neg (fun he => hk (Option.some.inj he))]
      have hres := ih
        { s with
            currentCheck := some c.name
            currentNumberCheck := idx + 1
            cachedData := applyCacheWrites s.cachedData c.cacheWrites
            heap := storeStep dt s.heap mA uA c }
        (idx + 1)
        (if storableM dt c then dictSet mm c.name c.mayaResult else mm)
        (if storableU dt c then dictSet uu c.name c.usdResult else uu)
        hI (by omega) h2' hM hU
      obtain ⟨r1, r2, r3, r4⟩ := hres
      have htake : (c :: rest).take (k - idx) = c :: rest.take (k - (idx + 1)) := by
        have h3 : k - idx = (k - (idx + 1)) + 1 := by omega
        rw [h3, List.take_succ_cons]
      refine ⟨r1, r2, ?_, ?_⟩
      · rw [r3, htake, storeNamesM_cons]
      · rw [r4, htake, storeNamesU_cons]

theorem setup_context_heap (s : RunnerState) (sel scene : List String)
    (dt : DataType) :
    (setup_context s sel scene dt).heap =
      { maya := s.heap.maya ++ [(s.heap.next, [])],
        usd := s.heap.usd ++ [(s.heap.next + 1, [])],
        next := s.heap.next + 2 } := rfl

theorem setup_context_addrs (s : RunnerState) (sel scene : List String)
    (dt : DataType) :
    ctxAddrs (setup_context s sel scene dt) (setup_context s sel scene dt).currentContext =
      (s.heap.next, s.heap.next + 1) := by
  unfold setup_context ctxAddrs allocPair
  by_cases hsel : sel.isEmpty = true <;> simp [hsel]

theorem lookup_fresh {β : Type} (l : List (Addr × β)) (n : Addr)
    (hn : n ∉ l.map Prod.fst) (v : β) :
    List.lookup n (l ++ [(n, v)]) = some v := by
  rw [lookup_append_assoc, lookup_eq_none_of_not_mem_fst l n hn]
  simp [List.lookup]

theorem lookup_append_old {β : Type} (l : List (Addr × β)) (n a : Addr)
    (hne : a ≠ n) (v : β) :
    List.lookup a (l ++ [(n, v)]) = List.lookup a l := by
  rw [lookup_append_assoc]
  have hnone : List.lookup a [(n, v)] = none := by
    have hb : (a == n) = false := by simp [hne]
    simp [List.lookup, hb]
  rw [hnone]
  cases List.lookup a l <;> rfl

/-- C3: over a freshly resolved non-empty context, if the stop request
arrives while the k-th of n scheduled checks is current (k < n), the run
publishes exactly one result, flagged interrupted, whose per-domain error
dictionaries hold the stored results of the first k checks and whose key
sets cover exactly the names of those k checks; the progress bookkeeping
stops at check number k. -/
theorem C3_theorem (s : RunnerState) (checks : List Check) (dt : DataType)
    (sel scene : List String) (k : Nat)
    (hWF : heapWF s.heap) (hI : s.interrupt = false)
    (hk1 : 1 ≤ k) (hk2 : k < checks.length)
    (hnon : ((setup_context s sel scene dt).nodes.isEmpty &&
             (setup_context s sel scene dt).usdNodes.isEmpty) = false)
    (hstor : ∀ c ∈ checks, storableM dt c ∨ storableU dt c) :
    interruptedRunOutcome s checks dt k (runOp s checks dt true sel scene (some k)) := by
  have hres : resolvedContext s true sel scene dt = setup_context s sel scene dt := by
    unfold resolvedContext
    rw [if_pos (by simp)]
  have hckne : ¬(checks.isEmpty = true) := by
    intro hemp
    rw [List.isEmpty_iff] at hemp
    rw [hemp] at hk2
    simp at hk2
  have hrun : runOp s checks dt true sel scene (some k) =
      mainRun (setup_context s sel scene dt) checks dt (some k) := by
    unfold runOp
    rw [hres]
    rw [if_neg (by rw [hnon]; exact Bool.false_ne_true), if_neg hckne]
  have haddr := setup_context_addrs s sel scene dt
  have hlookM : lookupMaya (setup_context s sel scene dt).heap
      (ctxAddrs (setup_context s sel scene dt)
        (setup_context s sel scene dt).currentContext).1 = some [] := by
    rw [haddr, setup_context_heap]
    exact lookup_fresh s.heap.maya s.heap.next
      (fun hmem => absurd (hWF.1 _ hmem) (lt_irrefl _)) []
  have hlookU : lookupUsd (setup_context s sel scene dt).heap
      (ctxAddrs (setup_context s sel scene dt)
        (setup_context s sel scene dt).currentContext).2 = some [] := by
    rw [haddr, setup_context_heap]
    refine lookup_fresh s.heap.usd (s.heap.next + 1) ?_ []
    intro hmem
    exact Nat.lt_irrefl _ (Nat.lt_of_succ_lt (hWF.2 _ hmem))
  have hIntr : ({ setup_context s sel scene dt with
      scheduledChecksAmount := checks.length } : RunnerState).interrupt = false := hI
  have hk0 : (0 : Nat) < k := hk1
  have hklen : k ≤ 0 + checks.length := by omega
  obtain ⟨hI1, hI2, hI3, hI4⟩ := runLoop_stop_spec dt
    (ctxAddrs (setup_context s sel scene dt)
      (setup_context s sel scene dt).currentContext).1
    (ctxAddrs (setup_context s sel scene dt)
      (setup_context s sel scene dt).currentContext).2
    k checks
    { setup_context s sel scene dt with scheduledChecksAmount := checks.length }
    0 [] [] hIntr hk0 hklen hlookM hlookU
  rw [Nat.sub_zero] at hI3 hI4
  rw [hrun]
  unfold interruptedRunOutcome
  have hsm : mainSnapM (setup_context s sel scene dt) checks dt (some k) =
      storeNamesM dt [] (checks.take k) := by
    unfold mainSnapM loopState
    rw [hI3]
    rfl
  have hsu : mainSnapU (setup_context s sel scene dt) checks dt (some k) =
      storeNamesU dt [] (checks.take k) := by
    unfold mainSnapU loopState
    rw [hI4]
    rfl
  refine ⟨mainResult (setup_context s sel scene dt) checks dt (some k), ?_, ?_, ?_, ?_⟩
  · rw [mainRun_emitted, hsm, hsu]
    rfl
  · show (loopState (setup_context s sel scene dt) checks dt (some k)).interrupt = true
    exact hI1
  · show (loopState (setup_context s sel scene dt) checks dt (some k)).currentNumberCheck = k
    exact hI2
  · intro nm
    rw [mem_dictKeys_storeNamesM, mem_dictKeys_storeNamesU]
    constructor
    · rintro ((h | ⟨c, hc, _, rfl⟩) | (h | ⟨c, hc, _, rfl⟩))
      · exact absurd h (by simp [dictKeys])
      · exact List.mem_map.mpr ⟨c, hc, rfl⟩
      · exact absurd h (by simp [dictKeys])
      · exact List.mem_map.mpr ⟨c, hc, rfl⟩
    · intro h
      rcases List.mem_map.mp h with ⟨c, hc, rfl⟩
      rcases hstor c (List.take_subset _ _ hc) with hs | hs
      · exact Or.inl (Or.inr ⟨c, hc, hs, rfl⟩)
      · exact Or.inr (Or.inr ⟨c, hc, hs, rfl⟩)

theorem runLoop_lookupM_ne (dt : DataType) (sa : Option Nat) (mA uA : Addr) :
    ∀ (cs : List Check) (s : RunnerState) (idx : Nat) (a : Addr), a ≠ mA →
      lookupMaya (runLoop dt sa mA uA s cs idx).heap a = lookupMaya s.heap a := by
  intro cs
  induction cs with
  | nil => intro s idx a _; rfl
  | cons c rest ih =>
    intro s idx a hne
    by_cases hI : s.interrupt = true
    · simp only [runLoop]
      rw [if_pos hI]
    · simp only [runLoop]
      rw [if_neg hI]
      rw [ih (runStep dt sa mA uA s c idx) (idx + 1) a hne]
      rw [(runStep_frame dt sa mA uA s c idx).2.2.2.2.2.2.2.2.2]
      exact storeStep_lookupM_ne dt s.heap mA uA a c hne

theorem runLoop_lookupU_ne (dt : DataType) (sa : Option Nat) (mA uA : Addr) :
    ∀ (cs : List Check) (s : RunnerState) (idx : Nat) (a : Addr), a ≠ uA →
      lookupUsd (runLoop dt sa mA uA s cs idx).heap a = lookupUsd s.heap a := by
  intro cs
  induction cs with
  | nil => intro s idx a _; rfl
  | cons c rest ih =>
    intro s idx a hne
    by_cases hI : s.interrupt = true
    · simp only [runLoop]
      rw [if_pos hI]
    · simp only [runLoop]
      rw [if_neg hI]
      rw [ih (runStep dt sa mA uA s c idx) (idx + 1) a hne]
      rw [(runStep_frame dt sa mA uA s c idx).2.2.2.2.2.2.2.2.2]
      exact storeStep_lookupU_ne dt s.heap mA uA a c hne

theorem runLoop_lookupM_some (dt : DataType) (sa : Option Nat) (mA uA : Addr) :
    ∀ (cs : List Check) (s : RunnerState) (idx : Nat),
      (lookupMaya s.heap mA).isSome = true →
      (lookupMaya (runLoop dt sa mA uA s cs idx).heap mA).isSome = true := by
  intro cs
  induction cs with
  | nil => intro s idx h; exact h
  | cons c rest ih =>
    intro s idx h
    by_cases hI : s.interrupt = true
    · simp only [runLoop]
      rw [if_pos hI]
      exact h
    · simp only [runLoop]
      rw [if_neg hI]
      refine ih (runStep dt sa mA uA s c idx) (idx + 1) ?_
      rw [(runStep_frame dt sa mA uA s c idx).2.2.2.2.2.2.2.2.2]
      rw [storeStep_lookupM]
      rcases Option.isSome_iff_exists.mp h with ⟨mm, hmm⟩
      rw [hmm]
      rfl

theorem runLoop_lookupU_some (dt : DataType) (sa : Option Nat) (mA uA : Addr) :
    ∀ (cs : List Check) (s : RunnerState) (idx : Nat),
      (lookupUsd s.heap uA).isSome = true →
      (lookupUsd (runLoop dt sa mA uA s cs idx).heap uA).isSome = true := by
  intro cs
  induction cs with
  | nil => intro s idx h; exact h
  | cons c rest ih =>
    intro s idx h
    by_cases hI : s.interrupt = true
    · simp only [runLoop]
      rw [if_pos hI]
      exact h
    · simp only [runLoop]
      rw [if_neg hI]
      refine ih (runStep dt sa mA uA s c idx) (idx + 1) ?_
      rw [(runStep_frame dt sa mA uA s c idx).2.2.2.2.2.2.2.2.2]
      rw [storeStep_lookupU]
      rcases Option.isSome_iff_exists.mp h with ⟨uu, huu⟩
      rw [huu]
      rfl

theorem lookupMaya_setup (s : RunnerState) (sel scene : List String)
    (dt : DataType) (a : Addr) (ha : a < s.heap.next) :
    lookupMaya (setup_context s sel scene dt).heap a = lookupMaya s.heap a :=
  lookup_append_old s.heap.maya s.heap.next a (Nat.ne_of_lt ha) []

theorem lookupUsd_setup (s : RunnerState) (sel scene : List String)
    (dt : DataType) (a : Addr) (ha : a < s.heap.next) :
    lookupUsd (setup_context s sel scene dt).heap a = lookupUsd s.heap a :=
  lookup_append_old s.heap.usd (s.heap.next + 1) a
    (Nat.ne_of_lt (Nat.lt_succ_of_lt ha)) []

theorem heapWF_setup (s : RunnerState) (sel scene : List String) (dt : DataType)
    (h : heapWF s.heap) : heapWF (setup_context s sel scene dt).heap := by
  rw [setup_context_heap]
  constructor
  · intro a ha
    simp only [List.map_append, List.mem_append] at ha
    rcases ha with ha | ha
    · exact Nat.lt_succ_of_lt (Nat.lt_succ_of_lt (h.1 a ha))
    · have : a = s.heap.next := by simpa using ha
      rw [this]
      exact Nat.lt_of_lt_of_le (Nat.lt_succ_self _) (Nat.le_succ _)
  · intro a ha
    simp only [List.map_append, List.mem_append] at ha
    rcases ha with ha | ha
    · exact Nat.lt_succ_of_lt (Nat.lt_succ_of_lt (h.2 a ha))
    · have : a = s.heap.next + 1 := by simpa using ha
      rw [this]
      exact Nat.lt_succ_self _

theorem C8Inv_setup (s : RunnerState) (sel scene : List String) (dt : DataType)
    (h : C8Inv s) : C8Inv (setup_context s sel scene dt) := by
  refine ⟨heapWF_setup s sel scene dt h.1, ?_⟩
  intro e he
  obtain ⟨h1, h2, h3, h4⟩ := h.2 e he
  refine ⟨?_, ?_, ?_, ?_⟩
  · rw [setup_context_heap]
    exact Nat.lt_succ_of_lt (Nat.lt_succ_of_lt h1)
  · rw [setup_context_heap]
    exact Nat.lt_succ_of_lt (Nat.lt_succ_of_lt h2)
  · rw [lookupMaya_setup s sel scene dt _ h1]
    exact h3
  · rw [lookupUsd_setup s sel scene dt _ h2]
    exact h4

theorem C8Inv_error_run (s : RunnerState) (msg : String) (h : C8Inv s) :
    C8Inv (error_run s msg) := h

theorem C8Inv_mainRun (s : RunnerState) (sel scene : List String)
    (cs : List Check) (dt : DataType) (sa : Option Nat) (h : C8Inv s) :
    C8Inv (mainRun (setup_context s sel scene dt) cs dt sa) := by
  have hs1WF := heapWF_setup s sel scene dt h.1
  have haddr := setup_context_addrs s sel scene dt
  have hmA : (ctxAddrs (setup_context s sel scene dt)
      (setup_context s sel scene dt).currentContext).1 = s.heap.next := by
    rw [haddr]
  have huA : (ctxAddrs (setup_context s sel scene dt)
      (setup_context s sel scene dt).currentContext).2 = s.heap.next + 1 := by
    rw [haddr]
  obtain ⟨e1, e2, e3, e4, e5, e6, e7, e8, e9, e10, e11, e12⟩ :=
    runLoop_frame dt sa (ctxAddrs (setup_context s sel scene dt)
        (setup_context s sel scene dt).currentContext).1
      (ctxAddrs (setup_context s sel scene dt)
        (setup_context s sel scene dt).currentContext).2
      cs { setup_context s sel scene dt with scheduledChecksAmount := cs.length } 0
  have hnext : (loopState (setup_context s sel scene dt) cs dt sa).heap.next =
      s.heap.next + 2 := by
    unfold loopState
    rw [e10]
    rfl
  have hloopWF : heapWF (loopState (setup_context s sel scene dt) cs dt sa).heap := by
    constructor
    · intro a ha
      unfold loopState at ha ⊢
      rw [e11] at ha
      rw [e10]
      exact hs1WF.1 a ha
    · intro a ha
      unfold loopState at ha ⊢
      rw [e12] at ha
      rw [e10]
      exact hs1WF.2 a ha
  constructor
  · exact hloopWF
  · intro e he
    have he' : e ∈ (loopState (setup_context s sel scene dt) cs dt sa).emitted ++
        [(mainResult (setup_context s sel scene dt) cs dt sa,
          mainSnapM (setup_context s sel scene dt) cs dt sa,
          mainSnapU (setup_context s sel scene dt) cs dt sa)] := he
    rcases List.mem_append.mp he' with hold | hnew
    · -- an entry published by an earlier run
      have hsEm : e ∈ s.emitted := by
        unfold loopState at hold
        rw [e1] at hold
        exact hold
      obtain ⟨h1, h2, h3, h4⟩ := h.2 e hsEm
      have hmheap : (mainRun (setup_context s sel scene dt) cs dt sa).heap =
          (loopState (setup_context s sel scene dt) cs dt sa).heap := rfl
      refine ⟨?_, ?_, ?_, ?_⟩
      · rw [hmheap, hnext]
        exact Nat.lt_succ_of_lt (Nat.lt_succ_of_lt h1)
      · rw [hmheap, hnext]
        exact Nat.lt_succ_of_lt (Nat.lt_succ_of_lt h2)
      · rw [hmheap]
        unfold loopState
        rw [runLoop_lookupM_ne dt sa _ _ cs _ 0 e.1.mayaAddr
              (by rw [hmA]; exact Nat.ne_of_lt h1)]
        rw [show ({ setup_context s sel scene dt with
              scheduledChecksAmount := cs.length } : RunnerState).heap =
            (setup_context s sel scene dt).heap from rfl]
        rw [lookupMaya_setup s sel scene dt _ h1]
        exact h3
      · rw [hmheap]
        unfold loopState
        rw [runLoop_lookupU_ne dt sa _ _ cs _ 0 e.1.usdAddr
              (by rw [huA]; exact Nat.ne_of_lt (Nat.lt_succ_of_lt h2))]
        rw [show ({ setup_context s sel scene dt with
              scheduledChecksAmount := cs.length } : RunnerState).heap =
            (setup_context s sel scene dt).heap from rfl]
        rw [lookupUsd_setup s sel scene dt _ h2]
        exact h4
    · -- the entry published by this run
      have he2 : e = (mainResult (setup_context s sel scene dt) cs dt sa,
          mainSnapM (setup_context s sel scene dt) cs dt sa,
          mainSnapU (setup_context s sel scene dt) cs dt sa) := by
        simpa using hnew
      subst he2
      have hfreshM : lookupMaya (setup_context s sel scene dt).heap s.heap.next =
          some [] := by
        rw [setup_context_heap]
        exact lookup_fresh s.heap.maya s.heap.next
          (fun hmem => absurd (h.1.1 _ hmem) (lt_irrefl _)) []
      have hfreshU : lookupUsd (setup_context s sel scene dt).heap (s.heap.next + 1) =
          some [] := by
        rw [setup_context_heap]
        refine lookup_fresh s.heap.usd (s.heap.next + 1) ?_ []
        intro hmem
        exact Nat.lt_irrefl _ (Nat.lt_of_succ_lt (h.1.2 _ hmem))
      have hsomeM : (lookupMaya (loopState (setup_context s sel scene dt) cs dt sa).heap
          (ctxAddrs (setup_context s sel scene dt)
            (setup_context s sel scene dt).currentContext).1).isSome = true := by
        unfold loopState
        refine runLoop_lookupM_some dt sa _ _ cs _ 0 ?_
        rw [show ({ setup_context s sel scene dt with
              scheduledChecksAmount := cs.length } : RunnerState).heap =
            (setup_context s sel scene dt).heap from rfl]
        rw [hmA, hfreshM]
        rfl
      have hsomeU : (lookupUsd (loopState (setup_context s sel scene dt) cs dt sa).heap
          (ctxAddrs (setup_context s sel scene dt)
            (setup_context s sel scene dt).currentContext).2).isSome = true := by
        unfold loopState
        refine runLoop_lookupU_some dt sa _ _ cs _ 0 ?_
        rw [show ({ setup_context s sel scene dt with
              scheduledChecksAmount := cs.length } : RunnerState).heap =
            (setup_context s sel scene dt).heap from rfl]
        rw [huA, hfreshU]
        rfl
      refine ⟨?_, ?_, ?_, ?_⟩
      · show (ctxAddrs (setup_context s sel scene dt)
            (setup_context s sel scene dt).currentContext).1 <
          (mainRun (setup_context s sel scene dt) cs dt sa).heap.next
        rw [show (mainRun (setup_context s sel scene dt) cs dt sa).heap =
            (loopState (setup_context s sel scene dt) cs dt sa).heap from rfl]
        rw [hnext, hmA]
        exact Nat.lt_succ_of_lt (Nat.lt_succ_self _)
      · show (ctxAddrs (setup_context s sel scene dt)
            (setup_context s sel scene dt).currentContext).2 <
          (mainRun (setup_context s sel scene dt) cs dt sa).heap.next
        rw [show (mainRun (setup_context s sel scene dt) cs dt sa).heap =
            (loopState (setup_context s sel scene dt) cs dt sa).heap from rfl]
        rw [hnext, huA]
        exact Nat.lt_succ_self _
      · rcases Option.isSome_iff_exists.mp hsomeM with ⟨mm, hmm⟩
        show lookupMaya (loopState (setup_context s sel scene dt) cs dt sa).heap
            (ctxAddrs (setup_context s sel scene dt)
              (setup_context s sel scene dt).currentContext).1 =
          some (mainSnapM (setup_context s sel scene dt) cs dt sa)
        unfold mainSnapM
        rw [hmm]
        rfl
      · rcases Option.isSome_iff_exists.mp hsomeU with ⟨uu, huu⟩
        show lookupUsd (loopState (setup_context s sel scene dt) cs dt sa).heap
            (ctxAddrs (setup_context s sel scene dt)
              (setup_context s sel scene dt).currentContext).2 =
          some (mainSnapU (setup_context s sel scene dt) cs dt sa)
        unfold mainSnapU
        rw [huu]
        rfl

theorem reset_contexts_heap (s : RunnerState) :
    (reset_contexts s).heap =
      { maya := (s.heap.maya ++ [(s.heap.next, [])]) ++ [(s.heap.next + 2, [])],
        usd := (s.heap.usd ++ [(s.heap.next + 1, [])]) ++ [(s.heap.next + 3, [])],
        next := s.heap.next + 4 } := rfl

theorem C8Inv_reset (s : RunnerState) (h : C8Inv s) : C8Inv (reset_contexts s) := by
  constructor
  · constructor
    · intro a ha
      rw [reset_contexts_heap] at ha ⊢
      simp only [List.map_append, List.mem_append] at ha
      rcases ha with (ha | ha) | ha
      · exact Nat.lt_of_lt_of_le (h.1.1 a ha) (Nat.le_add_right _ 4)
      · have : a = s.heap.next := by simpa using ha
        rw [this]
        exact Nat.lt_add_of_pos_right (by decide)
      · have : a = s.heap.next + 2 := by simpa using ha
        rw [this]
        exact Nat.add_lt_add_left (by decide) _
    · intro a ha
      rw [reset_contexts_heap] at ha ⊢
      simp only [List.map_append, List.mem_append] at ha
      rcases ha with (ha | ha) | ha
      · exact Nat.lt_of_lt_of_le (h.1.2 a ha) (Nat.le_add_right _ 4)
      · have : a = s.heap.next + 1 := by simpa using ha
        rw [this]
        exact Nat.add_lt_add_left (by decide) _
      · have : a = s.heap.next + 3 := by simpa using ha
        rw [this]
        exact Nat.add_lt_add_left (by decide) _
  · intro e he
    obtain ⟨h1, h2, h3, h4⟩ := h.2 e he
    refine ⟨?_, ?_, ?_, ?_⟩
    · rw [reset_contexts_heap]
      exact Nat.lt_of_lt_of_le h1 (Nat.le_add_right _ 4)
    · rw [reset_contexts_heap]
      exact Nat.lt_of_lt_of_le h2 (Nat.le_add_right _ 4)
    · show List.lookup e.1.mayaAddr
          ((s.heap.maya ++ [(s.heap.next, [])]) ++ [(s.heap.next + 2, [])]) = some e.2.1
      rw [lookup_append_old _ (s.heap.next + 2) _
            (Nat.ne_of_lt (Nat.lt_of_lt_of_le h1 (Nat.le_add_right _ 2))) []]
      rw [lookup_append_old _ s.heap.next _ (Nat.ne_of_lt h1) []]
      exact h3
    · show List.lookup e.1.usdAddr
          ((s.heap.usd ++ [(s.heap.next + 1, [])]) ++ [(s.heap.next + 3, [])]) = some e.2.2
      rw [lookup_append_old _ (s.heap.next + 3) _
            (Nat.ne_of_lt (Nat.lt_of_lt_of_le h2 (Nat.le_add_right _ 3))) []]
      rw [lookup_append_old _ (s.heap.next + 1) _
            (Nat.ne_of_lt (Nat.lt_of_lt_of_le h2 (Nat.le_add_right _ 1))) []]
      exact h4

theorem C8Inv_applyOp (s : RunnerState) (op : Op) (hr : opRefreshes op = true)
    (h : C8Inv s) : C8Inv (applyOp s op) := by
  cases op with
  | runChecks cs dt r sel scene sa =>
    have hrT : r = true := hr
    subst hrT
    show C8Inv (runOp s cs dt true sel scene sa)
    have hres : resolvedContext s true sel scene dt = setup_context s sel scene dt := by
      unfold resolvedContext
      rw [if_pos (by simp)]
    unfold runOp
    rw [hres]
    split
    · exact C8Inv_error_run _ _ (C8Inv_setup s sel scene dt h)
    · split
      · exact C8Inv_error_run _ _ (C8Inv_setup s sel scene dt h)
      · exact C8Inv_mainRun s sel scene cs dt sa h
  | reset => exact C8Inv_reset s h
  | stopReq =>
    show C8Inv (stopOp s)
    unfold stopOp
    cases s.currentCheck with
    | none => exact h
    | some nm => exact ⟨h.1, h.2⟩

/-- C8 counterexample: after a first run over the selection context, a
second run with `refresh_context=False` rebinds the same dictionaries and
mutates them in place — the result published by the first run no longer
dereferences to the snapshot it was published with (the map at its address
gained the second run's entry). -/
theorem C8_counterexample :
    ¬ publishedResultsIntact (runTrace [opW1, opW2]) ∧
    (runTrace [opW1, opW2]).emitted.map (fun e => (e.1.mayaAddr, e.2.1)) =
      [(4, [("c1", MayaData.nodes ["bad1"])]),
       (4, [("c1", MayaData.nodes ["bad1"]), ("c2", MayaData.nodes ["bad2"])])] ∧
    lookupMaya (runTrace [opW1, opW2]).heap 4 =
      some [("c1", MayaData.nodes ["bad1"]), ("c2", MayaData.nodes ["bad2"])] := by
  refine ⟨by decide, by decide, by decide⟩

/-- C8 (amended): in every session whose runs all pass
`refresh_context=True`, each run resolves its context into freshly
allocated dictionaries, so every previously published result still
dereferences to exactly the snapshot it was published with — earlier
results are superseded, never mutated.  (With `refresh_context=False` over
a non-empty context the later run mutates the earlier result's maps in
place, as the counterexample shows.) -/
theorem C8_theorem (ops : List Op) (hall : allRunsRefresh ops) :
    publishedResultsIntact (runTrace ops) := by
  have main : ∀ (l : List Op) (s : RunnerState), (∀ op ∈ l, opRefreshes op = true) →
      C8Inv s → C8Inv (l.foldl applyOp s) := by
    intro l
    induction l with
    | nil => intro s _ h; exact h
    | cons op t ih =>
      intro s hall2 h
      exact ih _ (fun o ho => hall2 o (List.mem_cons_of_mem op ho))
        (C8Inv_applyOp s op (hall2 op (List.mem_cons_self op t)) h)
  have hinv := main ops initState hall (by decide)
  exact fun e he => ⟨(hinv.2 e he).2.2.1, (hinv.2 e he).2.2.2⟩

/-- C8 witness: two consecutive refreshing runs leave the first run's
published result intact. -/
theorem C8_witness :
    allRunsRefresh [opW1, opW3] ∧ publishedResultsIntact (runTrace [opW1, opW3]) :=
  ⟨by decide, C8_theorem [opW1, opW3] (by decide)⟩

theorem pyFirstCharIsPipe_append (s t : String)
    (h : pyFirstCharIsPipe s = true) : pyFirstCharIsPipe (s ++ t) = true := by
  unfold pyFirstCharIsPipe at h ⊢
  rw [String.data_append]
  cases hd : s.data with
  | nil => simp [hd] at h
  | cons c cs =>
    rw [hd] at h
    simpa using h

theorem mem_get_all_nodes (uuidOf : String → String) (scene : List Transform)
    (x : String) (hx : x ∈ get_all_nodes uuidOf scene) :
    ∃ t ∈ scene, (defaultCameras.contains t.name) = false ∧
      ((∃ sh ∈ t.shapes, sh.shapeNodeType = "mayaUsdProxyShape" ∧
          ∃ p ∈ sh.primPaths, x = sh.path ++ "," ++ p) ∨
        x = uuidOf t.name) := by
  unfold get_all_nodes at hx
  rcases List.mem_flatMap.mp hx with ⟨t, ht, hxt⟩
  rcases List.mem_filter.mp ht with ⟨htm, htc⟩
  rcases List.mem_flatMap.mp hxt with ⟨sh, hsh, hxsh⟩
  refine ⟨t, htm, by simpa using htc, ?_⟩
  by_cases hp : sh.shapeNodeType = "mayaUsdProxyShape"
  · rw [if_pos hp] at hxsh
    unfold getAllPrimsFromProxy at hxsh
    rcases List.mem_map.mp hxsh with ⟨p, hpm, hpe⟩
    exact Or.inl ⟨sh, hsh, hp, p, hpm, hpe.symm⟩
  · rw [if_neg hp] at hxsh
    exact Or.inr (by simpa using hxsh)

/-- C6: under the host facts that uuids are injective on scene transforms,
uuid strings do not begin with a pipe, and shape paths are full paths
beginning with a pipe, a whole-scene resolution (empty selection) never
places a default camera's entity id in the native-entity sequence. -/
theorem C6_theorem (uuidOf : String → String) (scene : List Transform)
    (s : RunnerState) (dt : DataType) (cam : String)
    (hcam : cam ∈ defaultCameras)
    (hinj : ∀ t ∈ scene, uuidOf t.name = uuidOf cam → t.name = cam)
    (hpaths : ∀ t ∈ scene, ∀ sh ∈ t.shapes, pyFirstCharIsPipe sh.path = true) :
    uuidOf cam ∉ (setup_context s [] (get_all_nodes uuidOf scene) dt).nodes := by
  intro hmem
  have hnodes : (setup_context s [] (get_all_nodes uuidOf scene) dt).nodes =
      if dt = DataType.usd then []
      else (get_all_nodes uuidOf scene).filter (fun n => !(pyFirstCharIsPipe n)) := rfl
  rw [hnodes] at hmem
  by_cases hdt : dt = DataType.usd
  · rw [if_pos hdt] at hmem
    exact absurd hmem (List.not_mem_nil _)
  · rw [if_neg hdt] at hmem
    rcases List.mem_filter.mp hmem with ⟨hall, hnp⟩
    rcases mem_get_all_nodes uuidOf scene _ hall with ⟨t, ht, htc, hcase⟩
    rcases hcase with ⟨sh, hsh, _, p, _, he⟩ | he
    · have hstart : pyFirstCharIsPipe (uuidOf cam) = true := by
        rw [he]
        exact pyFirstCharIsPipe_append _ _
          (pyFirstCharIsPipe_append _ _ (hpaths t ht sh hsh))
      rw [hstart] at hnp
      exact absurd hnp (by decide)
    · have hname : t.name = cam := hinj t ht he.symm
      have hc2 : defaultCameras.contains cam = true := List.elem_iff.mpr hcam
      rw [hname, hc2] at htc
      exact absurd htc (by decide)

/-- C6 witness: the front camera's uuid is absent from the native-entity
sequence of a whole-scene resolution over a scene containing the front
camera and one mesh transform. -/
theorem C6_witness :
    ("|front" : String) ∈ defaultCameras ∧
    uuidW "|front" ∉
      (setup_context initState [] (get_all_nodes uuidW sceneW) DataType.both).nodes :=
  ⟨by decide,
   C6_theorem uuidW sceneW initState DataType.both "|front"
     (by decide) (by decide) (by decide)⟩

/-- C3 witness: stop after the 2nd of 5 scheduled checks over a one-node
selection. -/
theorem C3_witness :
    heapWF initState.heap ∧
    interruptedRunOutcome initState fiveChecksW DataType.both 2
      (runOp initState fiveChecksW DataType.both true ["a"] [] (some 2)) :=
  ⟨by decide,
   C3_theorem initState fiveChecksW DataType.both ["a"] [] 2
     (by decide) rfl (by decide) (by decide) (by decide) (by decide)⟩

end ModelChecker
